import Mathlib

/-
Verification of the classification / logging core of the Bluum journaling app
(`src/utils.py`, `src/app.py`) against its natural-language specification.

External collaborators (the `thefuzz` similarity scorer, `json.loads`, the
HTTP transport, the filesystem and the Supabase client, the wall clock) are
modelled as oracle fields of an environment record; everything the repository
itself computes is embedded as executable Lean definitions over `String` /
`List Char`.
-/

namespace Echo

/-- JSON values as produced by Python `json.loads`. -/
inductive Json where
  | null
  | bool (b : Bool)
  | num (n : Int)
  | str (s : String)
  | arr (xs : List Json)
  | obj (kvs : List (String × Json))

/-- Python exceptions that can escape the embedded functions. -/
inductive PyError where
  | unboundLocalError
  | keyError
  | ioError
deriving DecidableEq

/-- Characters Python treats as whitespace in `str.strip()` / `str.isspace()`. -/
def pyIsSpace (c : Char) : Bool :=
  c = ' ' || c = '\t' || c = '\n' || c = '\r' || c = Char.ofNat 11 || c = Char.ofNat 12

/-- The backquote character (avoided as a literal). -/
def bq : Char := Char.ofNat 96

/-- The double-quote character. -/
def dq : Char := Char.ofNat 34

/-- The opening-brace character. -/
def lbrace : Char := Char.ofNat 123

/-- The closing-brace character. -/
def rbrace : Char := Char.ofNat 125

/-- Strip characters satisfying `p` from both ends of a character list
(Python `str.strip`). -/
def stripBoth (p : Char → Bool) (l : List Char) : List Char :=
  ((l.dropWhile p).reverse.dropWhile p).reverse

/-- Python `s.strip()` (no argument: strips whitespace). -/
def pyStripWs (s : String) : String :=
  ⟨stripBoth pyIsSpace s.data⟩

/-- Python `s.strip("` \n")` as used on the model reply: strips backquotes,
spaces and newlines from both ends. -/
def pyStripFence (s : String) : String :=
  ⟨stripBoth (fun c => c = bq || c = ' ' || c = '\n') s.data⟩

/-- Python `str.lower` (ASCII case folding; the source only compares against
ASCII tags, where Python and this model agree). -/
def pyLower (s : String) : String :=
  ⟨s.data.map Char.toLower⟩

/-- Boolean prefix test on character lists. -/
def isPre : List Char → List Char → Bool
  | [], _ => true
  | _ :: _, [] => false
  | a :: as, b :: bs => a = b && isPre as bs

/-- Python `s.startswith(pre)`. -/
def pyStartsWith (s pre : String) : Bool :=
  isPre pre.data s.data

/-- Python `s.endswith(suf)`. -/
def pyEndsWith (s suf : String) : Bool :=
  isPre suf.data.reverse s.data.reverse

/-- One step of Python `str.replace`: replace every occurrence of the
(nonempty) pattern `pat` by `rep`.  The source only calls this with the
nonempty patterns `"{{reflections}}"` and "```json". -/
def replaceL (pat rep : List Char) : List Char → List Char
  | [] => []
  | c :: rest =>
    if hp : pat ≠ [] ∧ isPre pat (c :: rest) then
      rep ++ replaceL pat rep ((c :: rest).drop pat.length)
    else
      c :: replaceL pat rep rest
termination_by l => l.length
decreasing_by
  · simp only [List.length_drop]
    have hlen : 0 < pat.length := List.length_pos.mpr hp.1
    simp only [List.length_cons]
    omega
  · simp [List.length_cons]

/-- Python `s.replace(pat, rep)` for nonempty `pat`. -/
def pyReplace (s pat rep : String) : String :=
  ⟨replaceL pat.data rep.data s.data⟩

/-- Python truthiness of a string rendered boolean. -/
def pyStrBool : Bool → String
  | true => "True"
  | false => "False"

/-- Python `str()` of a JSON-derived value, as the `csv` writer renders it.
Only scalar values are exercised by the source paths under verification. -/
def pyStrJson : Json → String
  | .str s => s
  | .num n => toString n
  | .bool b => pyStrBool b
  | .null => "None"
  | .arr _ => "[...]"
  | .obj _ => "\x7b...\x7d"

/-- Dictionary lookup on a JSON object (`None` when the key is absent or the
value is not an object). -/
def Json.lookup : Json → String → Option Json
  | .obj kvs, k => kvs.lookup k
  | _, _ => none

/-- Python `dict.get(k, d)` on a JSON object. -/
def Json.getD (j : Json) (k : String) (d : Json) : Json :=
  (j.lookup k).getD d

/-- Python truthiness of a JSON value (`if not raw_response:`). -/
def Json.falsy : Json → Bool
  | .null => true
  | .bool b => !b
  | .num n => n = 0
  | .str s => s = ""
  | .arr xs => xs.isEmpty
  | .obj kvs => kvs.isEmpty

/-- A `\x7b"category": ..., "response_text": ...\x7d` result dictionary. -/
def mkResult (category response_text : String) : Json :=
  .obj [("category", .str category), ("response_text", .str response_text)]

-- ------------------------------------------------------------------
-- Constants from src/utils.py
-- ------------------------------------------------------------------

def SYSTEM_PROMPT_VERSION : String := "v1.0"

def USER_PROMPT_VERSION : String := "v1.0-session"

def SAFETY_RED_FLAGS : List String :=
  ["end it all", "kill myself", "suicide", "worthless", "can\x27t go on", "hopeless",
   "despair", "give up", "death", "die", "harm myself", "self harm", "unalive",
   "kms", "i wanna die"]

def FUZZY_MATCH_THRESHOLD : Nat := 80

def SAFETY_MESSAGE : String :=
  "🚨 You mentioned something serious. Please talk to someone you trust or reach out for support."

-- ------------------------------------------------------------------
-- CSV encoding (the Python csv.DictWriter dialect: comma delimiter,
-- minimal double-quote quoting, CRLF line terminator)
-- ------------------------------------------------------------------

/-- Does a field need quoting under QUOTE_MINIMAL? -/
def needsQ (l : List Char) : Bool :=
  l.any (fun c => c = ',' || c = dq || c = '\r' || c = '\n')

/-- Double every double-quote (the writer escape). -/
def escQ : List Char → List Char
  | [] => []
  | c :: cs => if c = dq then dq :: dq :: escQ cs else c :: escQ cs

/-- Encode one field. -/
def encFieldL (l : List Char) : List Char :=
  if needsQ l then dq :: (escQ l ++ [dq]) else l

/-- Join encoded fields with commas. -/
def joinComma : List (List Char) → List Char
  | [] => []
  | [f] => f
  | f :: fs => f ++ ',' :: joinComma fs

/-- Encode one CSV record, CRLF-terminated. -/
def encRowL (fields : List (List Char)) : List Char :=
  joinComma (fields.map encFieldL) ++ ['\r', '\n']

/-- String-level row encoder. -/
def csvEncodeRow (fields : List String) : String :=
  ⟨encRowL (fields.map String.data)⟩

/-- The header of responses_log.csv. -/
def csvFieldNames : List String :=
  ["timestamp", "prompt", "entry", "category", "response_text", "safety_flagged"]

/-- One record of the CSV log. -/
structure CsvRow where
  timestamp : String
  prompt : String
  entry : String
  category : String
  response_text : String
  safety_flagged : Bool
deriving DecidableEq

/-- The field values the DictWriter renders for a record, in header order. -/
def CsvRow.fields (r : CsvRow) : List String :=
  [r.timestamp, r.prompt, r.entry, r.category, r.response_text, pyStrBool r.safety_flagged]

/-- `log_to_csv` as a transformation of the file contents: the header is
written first when (and only when) the file is empty, then the record is
appended. -/
def logCsvText (r : CsvRow) (contents : String) : String :=
  (if contents = "" then contents ++ csvEncodeRow csvFieldNames else contents)
    ++ csvEncodeRow r.fields

-- ------------------------------------------------------------------
-- Environment (external collaborators) and effects
-- ------------------------------------------------------------------

/-- One chat message of the outbound request body. -/
structure Msg where
  role : String
  content : String
deriving DecidableEq

/-- Outcome of the outbound HTTP POST inside `call_openrouter_api`. -/
inductive HttpOutcome where
  | transportError
  | badStatus
  | notJson
  | payload (body : Json)

/-- A row inserted into the Supabase `logs` table. -/
structure SupaRow where
  timestamp : String
  prompt : String
  entry : String
  category : String
  response_text : String
  safety_flagged : Bool
  system_prompt_version : String
  user_prompt_version : String
  session_id : String
deriving DecidableEq

/-- The external world `utils.py` interacts with. -/
structure Env where
  partialRatio : String → String → Nat
  jsonLoads : String → Option Json
  http : List Msg → HttpOutcome
  csvFails : Bool
  supaFails : Bool
  now : String
  systemPrompt : String
  userTemplate : String

/-- Observable side effects of a call. -/
structure Effects where
  csvFile : String
  supaRows : List SupaRow
  stdout : List String
  apiCalls : Nat
deriving DecidableEq

def Effects.print (fx : Effects) (s : String) : Effects :=
  { fx with stdout := fx.stdout ++ [s] }

-- ------------------------------------------------------------------
-- src/utils.py: logging helpers
-- ------------------------------------------------------------------

/-- `log_to_csv`: appends a record to responses_log.csv.  The body has no
exception handler, so a filesystem failure raises to the caller. -/
def log_to_csv (env : Env) (prompt entry category response_text : String)
    (safety_flagged : Bool) (fx : Effects) : Except PyError Effects :=
  if env.csvFails then .error .ioError
  else .ok { fx with
    csvFile := logCsvText ⟨env.now, prompt, entry, category, response_text, safety_flagged⟩ fx.csvFile }

/-- `log_to_supabase`: the insert is wrapped in try/except, so a failure is
only printed and never raises. -/
def log_to_supabase (env : Env) (session_id prompt entry category response_text : String)
    (safety_flagged : Bool) (fx : Effects) : Effects :=
  if env.supaFails then fx.print "❌ Supabase logging failed:"
  else { fx with supaRows := fx.supaRows ++
    [⟨env.now, prompt, entry, category, response_text, safety_flagged,
      SYSTEM_PROMPT_VERSION, USER_PROMPT_VERSION, session_id⟩] }

-- ------------------------------------------------------------------
-- src/utils.py: call_openrouter_api
-- ------------------------------------------------------------------

/-- Extraction `response.json()["choices"][0]["message"]["content"]`; any
missing key / wrong shape raises inside the try and yields `None`. -/
def extractContent (body : Json) : Option Json :=
  match body.lookup "choices" with
  | some (.arr (c :: _)) =>
    match c.lookup "message" with
    | some m => m.lookup "content"
    | none => none
  | _ => none

/-- The value `call_openrouter_api` returns (independent of the effect
threading). -/
def apiContent (env : Env) (api_key : String) (messages : List Msg) : Option Json :=
  if api_key = "" then none
  else
    match env.http messages with
    | .payload body => extractContent body
    | _ => none

/-- `call_openrouter_api`: returns the reply content, or `None` after
printing a diagnostic when the key is missing or any transport / status /
payload error is raised inside the try block. -/
def call_openrouter_api (env : Env) (api_key : String) (messages : List Msg)
    (fx : Effects) : Option Json × Effects :=
  if api_key = "" then (none, fx.print "Missing OpenRouter API key.")
  else
    let fx := { fx with apiCalls := fx.apiCalls + 1 }
    match env.http messages with
    | .payload body =>
      match extractContent body with
      | some c => (some c, fx)
      | none => (none, fx.print "API error:")
    | _ => (none, fx.print "API error:")

-- ------------------------------------------------------------------
-- src/utils.py: classify_and_respond
-- ------------------------------------------------------------------

/-- The reflections string built by the enumerate loop; `conversation[index]`
raises KeyError when an index is missing. -/
def buildReflections (conversation : Int → Option String) :
    Nat → List String → String → Except PyError String
  | _, [], acc => .ok acc
  | i, p :: ps, acc =>
    match conversation (Int.ofNat i) with
    | none => .error .keyError
    | some e =>
      buildReflections conversation (i + 1) ps
        (acc ++ "Reflection #" ++ toString (i + 1) ++ ". "
             ++ "Your journal prompt is: **\"" ++ pyStripWs p ++ "\"**."
             ++ "The user\x27s entry is: **\"" ++ e ++ "\"**\n")

/-- The value of the Python local `prompt` after the reflections loop:
the last prompt, or unbound when the loop body never ran. -/
def promptOf (prompts : List String) : Option String :=
  prompts.getLast?

/-- The messages list sent to OpenRouter. -/
def messagesOf (env : Env) (reflections : String) : List Msg :=
  [⟨"system", env.systemPrompt⟩,
   ⟨"user", pyReplace env.userTemplate "\x7b\x7breflections\x7d\x7d" (pyStripWs reflections)⟩]

/-- The reply cleanup performed before `json.loads`:
`strip("` \n")`, drop a leading case-insensitive "json" tag, and the
(unreachable after the first strip) code-fence removals. -/
def pyCleanup (raw : String) : String :=
  let cleaned := pyStripFence raw
  let cleaned :=
    if pyStartsWith (pyLower cleaned) "json" then pyStripWs ⟨cleaned.data.drop 4⟩ else cleaned
  let cleaned :=
    if pyStartsWith cleaned "```json" then pyStripWs (pyReplace cleaned "```json" "") else cleaned
  let cleaned :=
    if pyEndsWith cleaned "```" then pyStripWs ⟨cleaned.data.take (cleaned.data.length - 3)⟩
    else cleaned
  cleaned

/-- The `except Exception` handler of the parsing try block: prints, logs an
"unclear"/"Parsing error." record and returns that dictionary.  Its own
`log_to_csv(prompt=prompt, ...)` call re-raises UnboundLocalError when the
reflections loop never bound `prompt`, and re-raises a filesystem error. -/
def parseErrorPath (env : Env) (session_id : String) (prompts : List String)
    (last_entry : String) (fx : Effects) : Except PyError (Json × Effects) :=
  let fx := fx.print "Error parsing AI response:"
  match promptOf prompts with
  | none => .error .unboundLocalError
  | some prompt =>
    match log_to_csv env prompt last_entry "unclear" "Parsing error." false fx with
    | .error e => .error e
    | .ok fx =>
      let fx := log_to_supabase env session_id prompt last_entry "unclear" "Parsing error." false fx
      .ok (mkResult "unclear" "Parsing error.", fx)

/-- The tail of `classify_and_respond` after `call_openrouter_api` returned
`raw`: the `if not raw_response` fallback, then the try/except block that
cleans the reply, parses it, logs and returns the parsed dictionary, with
every exception inside the try routed to `parseErrorPath`. -/
def afterCall (env : Env) (session_id : String) (prompts : List String)
    (last_entry : String) (raw : Option Json) (fx : Effects) :
    Except PyError (Json × Effects) :=
  match raw with
  | none => .ok (mkResult "unclear" "Couldn’t reach the AI.", fx)
  | some rawJ =>
    if rawJ.falsy then .ok (mkResult "unclear" "Couldn’t reach the AI.", fx)
    else
      match rawJ with
      | .str s =>
        match env.jsonLoads (pyCleanup s) with
        | none => parseErrorPath env session_id prompts last_entry fx
        | some parsed =>
          match parsed with
          | .obj kvs =>
            match promptOf prompts with
            | none => parseErrorPath env session_id prompts last_entry fx
            | some prompt =>
              match log_to_csv env prompt last_entry
                  (pyStrJson ((Json.obj kvs).getD "category" (.str "unknown")))
                  (pyStrJson ((Json.obj kvs).getD "response_text" (.str "")))
                  false fx with
              | .error _ => parseErrorPath env session_id prompts last_entry fx
              | .ok fx =>
                let fx := log_to_supabase env session_id prompt last_entry
                  (pyStrJson ((Json.obj kvs).getD "category" (.str "unknown")))
                  (pyStrJson ((Json.obj kvs).getD "response_text" (.str "")))
                  false fx
                .ok (Json.obj kvs, fx)
          | _ => parseErrorPath env session_id prompts last_entry fx
      | _ => parseErrorPath env session_id prompts last_entry fx

/-- `classify_and_respond` from src/utils.py.

In the Python source the local variable `prompt` is bound only by the
reflections `for` loop, so the safety branch (which runs before that loop)
raises UnboundLocalError while evaluating `log_to_csv(prompt=prompt, ...)`,
before logging or returning. -/
def classify_and_respond (env : Env) (api_key session_id : String)
    (prompts : List String) (conversation : Int → Option String)
    (fx : Effects) : Except PyError (Json × Effects) :=
  match conversation ((prompts.length : Int) - 1) with
  | none => .error .keyError
  | some last_entry =>
    if SAFETY_RED_FLAGS.any
        (fun flag => FUZZY_MATCH_THRESHOLD ≤ env.partialRatio (pyLower last_entry) flag) then
      .error .unboundLocalError
    else if env.systemPrompt = "" || env.userTemplate = "" then
      .ok (mkResult "unclear" "Missing prompt templates.", fx)
    else
      match buildReflections conversation 0 prompts "" with
      | .error e => .error e
      | .ok reflections =>
        let fx := fx.print reflections
        let messages := messagesOf env reflections
        let rawAndFx := call_openrouter_api env api_key messages fx
        afterCall env session_id prompts last_entry rawAndFx.1 rawAndFx.2

/-- The returned dictionary, forgetting effects and errors. -/
def resultJson (r : Except PyError (Json × Effects)) : Option Json :=
  match r with
  | .ok (j, _) => some j
  | .error _ => none

/-- The api-call count of a normally returning run. -/
def resultApiCalls (r : Except PyError (Json × Effects)) : Option Nat :=
  match r with
  | .ok (_, fx) => some fx.apiCalls
  | .error _ => none

/-- The category field of a normally returning run. -/
def categoryOf (r : Except PyError (Json × Effects)) : Option Json :=
  (resultJson r).bind (fun j => j.lookup "category")

/-- The parsed remote reply along the successful remote path, recomputed from
the environment: the reflections, the request, the fence cleanup, the parse. -/
def remoteParsed (env : Env) (api_key : String) (prompts : List String)
    (conversation : Int → Option String) : Option Json :=
  match buildReflections conversation 0 prompts "" with
  | .error _ => none
  | .ok reflections =>
    match apiContent env api_key (messagesOf env reflections) with
    | some (.str s) => env.jsonLoads (pyCleanup s)
    | _ => none

-- ------------------------------------------------------------------
-- Reading the CSV log back (a quote-aware reader of the csv dialect
-- written above: comma delimiter, doubled-quote escapes, CRLF records)
-- ------------------------------------------------------------------

/-- Scan the file character by character.  Arguments: remaining input,
inside-quotes flag, current field accumulator, current record accumulator. -/
def csvScan : List Char → Bool → List Char → List (List Char) → List (List (List Char))
  | [], _, field, row => if field = [] ∧ row = [] then [] else [row ++ [field]]
  | c :: rest, true, field, row =>
    if c = dq then
      match hr : rest with
      | c2 :: rest2 =>
        if c2 = dq then csvScan rest2 true (field ++ [dq]) row
        else csvScan rest false field row
      | [] => csvScan [] false field row
    else csvScan rest true (field ++ [c]) row
  | c :: rest, false, field, row =>
    if c = dq ∧ field = [] then csvScan rest true field row
    else if c = ',' then csvScan rest false [] (row ++ [field])
    else if c = '\r' then
      match hr : rest with
      | c2 :: rest2 =>
        if c2 = '\n' then (row ++ [field]) :: csvScan rest2 false [] []
        else (row ++ [field]) :: csvScan rest false [] []
      | [] => [row ++ [field]]
    else if c = '\n' then (row ++ [field]) :: csvScan rest false [] []
    else csvScan rest false (field ++ [c]) row
termination_by l _ _ _ => l.length
decreasing_by
  all_goals first
  | (simp only [List.length_cons, List.length_nil]; omega)
  | (subst hr; simp only [List.length_cons, List.length_nil]; omega)

/-- Parse a CSV file into its records of field values. -/
def parseCsv (s : String) : List (List String) :=
  (csvScan s.data false [] []).map (fun r => r.map (fun f => (⟨f⟩ : String)))

/-- The file produced by logging a sequence of records to an initially
missing/empty responses_log.csv. -/
def csvFileOf (rs : List CsvRow) : String :=
  rs.foldl (fun contents r => logCsvText r contents) ""

-- ------------------------------------------------------------------
-- src/app.py: session state and the initial-submission handler
-- ------------------------------------------------------------------

/-- The Streamlit session-state variables `app.py` initializes. -/
structure AppState where
  app_state : String
  journal_entry_text : String
  ai_initial_response : String
  followup_entry_text : String
  ai_followup_response : String
  mood_selected : String
  current_prompt : String
  error_message : String
  current_reflection_concluded : Bool

/-- Observable effects of a handler run: rendered UI messages (kind, text)
and how often each remote helper was invoked. -/
structure AppFx where
  ui : List (String × String)
  analyzeCalls : Nat
  journalCalls : Nat

def AppFx.show (fx : AppFx) (kind text : String) : AppFx :=
  { fx with ui := fx.ui ++ [(kind, text)] }

/-- The structured user input assembled for the quiet/positive branches.
The fixed `response_constraints` text is an opaque payload for the external
model and is identified by the task tag here. -/
structure StructuredInput where
  task : String
  user_entry_content : String
  original_prompt_context : String

/-- External collaborators of `app.py`. -/
structure AppEnv where
  apiKey : String
  systemPrompt : String
  analyzeOutcome : String → String
  journalReply : StructuredInput → Option String

/-- Modelled from the spec: `analyze_entry` is imported by `app.py` but its
definition is not among the sources; per section 4.1 it classifies an entry
into one of the five categories via the remote service, swallowing failures.
It is represented by the oracle `AppEnv.analyzeOutcome`. -/
def analyze_entry (env : AppEnv) (entry : String) (fx : AppFx) : String × AppFx :=
  (env.analyzeOutcome entry, { fx with analyzeCalls := fx.analyzeCalls + 1 })

/-- Modelled from the spec: `get_journal_response` is imported by `app.py`
but its definition is not among the sources; per section 4.2 it sends the
input with the fixed system prompt to the remote model and returns the reply
text, or None on failure.  It is represented by the oracle
`AppEnv.journalReply`. -/
def get_journal_response (env : AppEnv) (input : StructuredInput) (fx : AppFx) :
    Option String × AppFx :=
  (env.journalReply input, { fx with journalCalls := fx.journalCalls + 1 })

def APP_STATES : List String := ["initial", "entry_submitted", "followup_submitted"]

/-- `set_app_state`. -/
def set_app_state (s : AppState) (state : String) (fx : AppFx) : AppState × AppFx :=
  if state ∈ APP_STATES then ({ s with app_state := state }, fx)
  else (s, fx.show "error" ("Invalid app state: " ++ state))

def SNAG_MESSAGE : String :=
  "⚠️ We hit a snag talking to the journaling assistant. This might be due to an API error or the free model\x27s rate limit (1 request/minute). Please check your terminal for details and try again in a minute."

/-- `get_ai_response_and_set_state` (initial-entry variant, `is_followup`
false).  The returned flag records whether `st.rerun()` was raised, which
aborts the rest of the caller. -/
def get_ai_response_and_set_state (env : AppEnv) (s : AppState)
    (input : StructuredInput) (fx : AppFx) : AppState × AppFx × Bool :=
  let s := { s with error_message := "" }
  let rfx := get_journal_response env input fx
  match rfx.1 with
  | some response =>
    if response = "" then
      ({ s with error_message := SNAG_MESSAGE }, rfx.2, false)
    else
      let s := { s with ai_initial_response := response }
      let sfx := set_app_state s "entry_submitted" rfx.2
      (sfx.1, sfx.2, true)
  | none =>
    ({ s with error_message := SNAG_MESSAGE }, rfx.2, false)

def RESOURCES_MD : String :=
  "\n        * **Samaritans (UK):** Call 116 123 (free, 24/7) or email jo@samaritans.org\n        * **Shout (UK):** Text SHOUT to 85258 (free, 24/7 crisis text service)\n        * **NHS 111 (UK):** Call 111 for urgent medical advice (non-emergency)\n        * **Your local GP or mental health services**\n        "

def SAFETY_UI_MESSAGE : String :=
  "🚨 Your entry contains sensitive content. You\x27re not alone — please talk to someone you trust or contact a professional."

def WELLBEING_INFO : String :=
  "We prioritize your well-being. Please use these resources if you need support."

def INSTRUCTION_WARNING : String :=
  "🤔 That looks like an instruction or tech request. Try expressing how you\x27re feeling instead."

def BLANK_WARNING : String := "Please write something before submitting."

/-- `handle_initial_submission` from src/app.py.  Returns the session state,
the effects, and whether `st.rerun()` was raised. -/
def handle_initial_submission (env : AppEnv) (s : AppState) (fx : AppFx) :
    AppState × AppFx × Bool :=
  let s := { s with error_message := "" }
  if pyStripWs s.journal_entry_text = "" then
    (s, fx.show "warning" BLANK_WARNING, false)
  else
    let s := { s with current_reflection_concluded := false }
    let ofx := analyze_entry env s.journal_entry_text fx
    let outcome := ofx.1
    let fx := ofx.2
    if outcome = "safety" then
      let fx := ((fx.show "error" SAFETY_UI_MESSAGE).show "markdown" RESOURCES_MD).show
        "info" WELLBEING_INFO
      let s := { s with ai_initial_response := "" }
      let sfx := set_app_state s "entry_submitted" fx
      (sfx.1, sfx.2, false)
    else if outcome = "instruction" then
      let fx := fx.show "warning" INSTRUCTION_WARNING
      let s := { s with ai_initial_response := "" }
      let sfx := set_app_state s "entry_submitted" fx
      (sfx.1, sfx.2, false)
    else if outcome = "quiet" then
      get_ai_response_and_set_state env s
        ⟨"encourage_elaboration", s.journal_entry_text, s.current_prompt⟩ fx
    else if outcome = "positive" then
      let out := get_ai_response_and_set_state env s
        ⟨"acknowledge_positive_entry", s.journal_entry_text, s.current_prompt⟩ fx
      if out.2.2 then out
      else ({ out.1 with current_reflection_concluded := true }, out.2.1, false)
    else
      (s, fx, false)

-- ------------------------------------------------------------------
-- Concrete instances used by witnesses and counterexamples
-- ------------------------------------------------------------------

/-- Substring occurrence test on character lists. -/
def isSub : List Char → List Char → Bool
  | pat, [] => pat.isEmpty
  | pat, l@(_ :: rest) => isPre pat l || isSub pat rest

/-- An exact-substring instance of the external fuzzy scorer:
`thefuzz.fuzz.partial_ratio` returns 100 when one string occurs verbatim in
the other, and this instance scores exactly those hits. -/
def subRatio (entry flag : String) : Nat :=
  if isSub flag.data entry.data then 100 else 0

/-- A response body `\x7b"choices": [\x7b"message": \x7b"content": c\x7d\x7d]\x7d`. -/
def mkBody (c : String) : Json :=
  .obj [("choices", .arr [.obj [("message", .obj [("content", .str c)])]])]

/-- Empty effects at the start of a call. -/
def fx0 : Effects := ⟨"", [], [], 0⟩

/-- A single-turn conversation dictionary `\x7b0: e\x7d`. -/
def conv1 (e : String) : Int → Option String :=
  fun i => if i = 0 then some e else none

/-- A baseline environment: substring fuzzy scorer, failing transport,
no JSON parses, healthy filesystem, loaded templates. -/
def envBase : Env :=
  ⟨subRatio, fun _ => none, fun _ => .transportError, false, false,
   "2025-01-01T00:00:00", "SYS", "Context: \x7b\x7breflections\x7d\x7d"⟩

/-- A remote reply whose category is outside the five enumerated values. -/
def bananaTxt : String := "\x7b\"category\": \"banana\", \"response_text\": \"hi\"\x7d"

def bananaObj : Json := .obj [("category", .str "banana"), ("response_text", .str "hi")]

/-- Environment in which the model answers with the `banana` category. -/
def envBanana : Env :=
  { envBase with
    jsonLoads := fun s => if s = bananaTxt then some bananaObj else none,
    http := fun _ => .payload (mkBody bananaTxt) }

/-- A well-formed positive remote reply. -/
def posTxt : String := "\x7b\"category\": \"positive\", \"response_text\": \"Nice!\"\x7d"

def posObj : Json := .obj [("category", .str "positive"), ("response_text", .str "Nice!")]

/-- Environment in which the model answers with a well-formed positive reply. -/
def envPos : Env :=
  { envBase with
    jsonLoads := fun s => if s = posTxt then some posObj else none,
    http := fun _ => .payload (mkBody posTxt) }

/-- `envPos` with a failing CSV filesystem. -/
def envCsvFail : Env := { envPos with csvFails := true }

/-- Environment in which the model answers with unparseable text. -/
def envBad : Env := { envBase with http := fun _ => .payload (mkBody "not json") }

/-- A positive reply wrapped in a markdown code fence with a json tag. -/
def fencedTxt : String := "```json\n" ++ posTxt ++ "\n```"

/-- Environment in which the model answers with the fenced positive reply. -/
def envFenced : Env :=
  { envBase with
    jsonLoads := fun s => if s = posTxt then some posObj else none,
    http := fun _ => .payload (mkBody fencedTxt) }

/-- The reflections string built for the one-turn conversation
`prompts = ["p"]`, entry `"hello"`. -/
def reflHello : String :=
  "Reflection #1. Your journal prompt is: **\"p\"**.The user\x27s entry is: **\"hello\"**\n"

/-- The reflections string for `prompts = ["p"]`, entry `"ok"`. -/
def reflOk : String :=
  "Reflection #1. Your journal prompt is: **\"p\"**.The user\x27s entry is: **\"ok\"**\n"

/-- A concrete app environment whose classifier always answers "unclear". -/
def aenvUnclear : AppEnv := ⟨"key", "SYS", fun _ => "unclear", fun _ => some "reply"⟩

/-- Empty app effects. -/
def afx0 : AppFx := ⟨[], 0, 0⟩

/-- A session state carrying a stale error message and a whitespace entry. -/
def sBlank : AppState :=
  ⟨"initial", "  \n ", "prev-ai", "", "", "calm", "prompt?", "old error", true⟩

/-- A session state carrying a stale error message and a real entry. -/
def sHello : AppState :=
  ⟨"initial", "hello there", "prev-ai", "", "", "calm", "prompt?", "boom", true⟩

/-- A concrete log record used by the round-trip witness. -/
def row0 : CsvRow :=
  ⟨"2025-01-01T00:00:00", "How was your day?", "fine, \"great\"\nreally", "positive", "Nice!", false⟩

-- ==================================================================
-- Theorems
-- ==================================================================

-- Helper lemmas ----------------------------------------------------

theorem data_append (s t : String) : (s ++ t).data = s.data ++ t.data := rfl

theorem mk_data (s : String) : (⟨s.data⟩ : String) = s := rfl

/-- The value `call_openrouter_api` returns is `apiContent`, independently
of the threaded effects. -/
theorem call_fst (env : Env) (key : String) (msgs : List Msg) (fx : Effects) :
    (call_openrouter_api env key msgs fx).1 = apiContent env key msgs := by
  unfold call_openrouter_api apiContent
  by_cases h : key = ""
  · simp [h]
  · simp only [h, reduceIte]
    cases hh : env.http msgs <;> simp only [] <;> try rfl
    rename_i body
    cases hx : extractContent body <;> simp

/-- With a nonempty key, the post attempt bumps the call counter once. -/
theorem call_apiCalls (env : Env) (key : String) (msgs : List Msg) (fx : Effects)
    (h : key ≠ "") :
    (call_openrouter_api env key msgs fx).2.apiCalls = fx.apiCalls + 1 := by
  unfold call_openrouter_api
  simp only [h, reduceIte]
  cases hh : env.http msgs <;> simp only [] <;> try rfl
  rename_i body
  cases hx : extractContent body <;> simp [Effects.print]

theorem supa_apiCalls (env : Env) (sid p e c r : String) (flag : Bool) (fx : Effects) :
    (log_to_supabase env sid p e c r flag fx).apiCalls = fx.apiCalls := by
  unfold log_to_supabase
  split <;> rfl

/-- `parseErrorPath` ignores `supaFails` and the incoming effects in the
value it returns. -/
theorem pep_fst_ext (env : Env) (b : Bool) (sid : String) (prompts : List String)
    (le : String) (fx fx2 : Effects) :
    (parseErrorPath { env with supaFails := b } sid prompts le fx).map Prod.fst
      = (parseErrorPath env sid prompts le fx2).map Prod.fst := by
  unfold parseErrorPath log_to_csv
  cases promptOf prompts <;> try rfl
  by_cases hc : env.csvFails <;> simp [hc, Except.map]

/-- When logging is healthy and a prompt is bound, the handler path returns
the fixed parsing-error dictionary. -/
theorem pep_fst_ok (env : Env) (sid : String) (prompts : List String) (le p : String)
    (fx : Effects) (hc : env.csvFails = false) (hp : promptOf prompts = some p) :
    (parseErrorPath env sid prompts le fx).map Prod.fst
      = .ok (mkResult "unclear" "Parsing error.") := by
  unfold parseErrorPath log_to_csv
  rw [hp]
  simp [hc, Except.map]

/-- The handler path leaves the api-call counter alone. -/
theorem pep_apiCalls (env : Env) (sid : String) (prompts : List String) (le p : String)
    (fx : Effects) (hc : env.csvFails = false) (hp : promptOf prompts = some p) :
    resultApiCalls (parseErrorPath env sid prompts le fx) = some fx.apiCalls := by
  unfold parseErrorPath log_to_csv
  rw [hp]
  simp [hc, resultApiCalls, supa_apiCalls, Effects.print]

/-- The dictionary `afterCall` returns does not depend on `supaFails` or on
the incoming effects. -/
theorem afterCall_fst_ext (env : Env) (b : Bool) (sid : String) (prompts : List String)
    (le : String) (raw : Option Json) (fx fx2 : Effects) :
    (afterCall { env with supaFails := b } sid prompts le raw fx).map Prod.fst
      = (afterCall env sid prompts le raw fx2).map Prod.fst := by
  unfold afterCall
  cases raw
  · rfl
  rename_i rawJ
  dsimp only
  by_cases hf : rawJ.falsy
  · rw [if_pos hf, if_pos hf]
    simp [Except.map]
  · rw [if_neg hf, if_neg hf]
    cases rawJ
    · exact pep_fst_ext env b sid prompts le fx fx2
    · exact pep_fst_ext env b sid prompts le fx fx2
    · exact pep_fst_ext env b sid prompts le fx fx2
    · rename_i s
      dsimp only
      cases hl : env.jsonLoads (pyCleanup s)
      · exact pep_fst_ext env b sid prompts le fx fx2
      rename_i parsed
      cases parsed
      · exact pep_fst_ext env b sid prompts le fx fx2
      · exact pep_fst_ext env b sid prompts le fx fx2
      · exact pep_fst_ext env b sid prompts le fx fx2
      · exact pep_fst_ext env b sid prompts le fx fx2
      · exact pep_fst_ext env b sid prompts le fx fx2
      rename_i kvs
      cases hp2 : promptOf prompts
      · exact pep_fst_ext env b sid prompts le fx fx2
      rename_i prompt
      unfold log_to_csv
      dsimp only
      by_cases hc : env.csvFails
      · rw [if_pos hc, if_pos hc]
        exact pep_fst_ext env b sid prompts le fx fx2
      · rw [if_neg hc, if_neg hc]
        simp [Except.map]
    · exact pep_fst_ext env b sid prompts le fx fx2
    · exact pep_fst_ext env b sid prompts le fx fx2

/-- Extract the returned dictionary from a `map Prod.fst` equation. -/
theorem resultJson_of_fst (r : Except PyError (Json × Effects)) (j : Json)
    (h : r.map Prod.fst = .ok j) : resultJson r = some j := by
  cases r with
  | error e => simp [Except.map] at h
  | ok p => simp [Except.map] at h; simp [resultJson, h]

/-- Under no safety hit, loaded templates and a successful reflections pass,
`classify_and_respond` reduces to `afterCall` on the api reply. -/
theorem classify_reduce (env : Env) (key sid : String) (prompts : List String)
    (conv : Int → Option String) (fx : Effects) (e r : String)
    (hconv : conv ((prompts.length : Int) - 1) = some e)
    (hsafe : ∀ flag ∈ SAFETY_RED_FLAGS,
      env.partialRatio (pyLower e) flag < FUZZY_MATCH_THRESHOLD)
    (hsys : ¬ env.systemPrompt = "") (huser : ¬ env.userTemplate = "")
    (hrefl : buildReflections conv 0 prompts "" = .ok r) :
    classify_and_respond env key sid prompts conv fx
      = afterCall env sid prompts e (apiContent env key (messagesOf env r))
          (call_openrouter_api env key (messagesOf env r) (fx.print r)).2 := by
  unfold classify_and_respond
  rw [hconv]
  have hany : SAFETY_RED_FLAGS.any
      (fun flag => FUZZY_MATCH_THRESHOLD ≤ env.partialRatio (pyLower e) flag) = false := by
    rw [List.any_eq_false]
    intro flag hfl
    simpa using Nat.not_le.mpr (hsafe flag hfl)
  simp only [hany, Bool.false_eq_true, if_false, reduceIte]
  rw [if_neg (by simp [hsys, huser])]
  rw [hrefl]
  dsimp only
  rw [call_fst]

/-- `afterCall` leaves the api-call counter unchanged and returns normally
when logging is healthy and the `prompt` variable is bound. -/
theorem afterCall_apiCalls (env : Env) (sid : String) (prompts : List String)
    (le p : String) (raw : Option Json) (fx : Effects)
    (hc : env.csvFails = false) (hp : promptOf prompts = some p) :
    resultApiCalls (afterCall env sid prompts le raw fx) = some fx.apiCalls := by
  unfold afterCall
  cases raw
  · simp [resultApiCalls]
  rename_i rawJ
  dsimp only
  by_cases hf : rawJ.falsy
  · rw [if_pos hf]
    simp [resultApiCalls]
  rw [if_neg hf]
  cases rawJ
  · exact pep_apiCalls env sid prompts le p fx hc hp
  · exact pep_apiCalls env sid prompts le p fx hc hp
  · exact pep_apiCalls env sid prompts le p fx hc hp
  · rename_i s
    dsimp only
    cases hl : env.jsonLoads (pyCleanup s)
    · exact pep_apiCalls env sid prompts le p fx hc hp
    rename_i parsed
    cases parsed
    · exact pep_apiCalls env sid prompts le p fx hc hp
    · exact pep_apiCalls env sid prompts le p fx hc hp
    · exact pep_apiCalls env sid prompts le p fx hc hp
    · exact pep_apiCalls env sid prompts le p fx hc hp
    · exact pep_apiCalls env sid prompts le p fx hc hp
    rename_i kvs
    rw [hp]
    unfold log_to_csv
    dsimp only
    rw [if_neg (by simp [hc])]
    simp [resultApiCalls, supa_apiCalls]
  · exact pep_apiCalls env sid prompts le p fx hc hp
  · exact pep_apiCalls env sid prompts le p fx hc hp

/-- `parseErrorPath` can only return the fixed parsing-error dictionary. -/
theorem pep_only_parsing_error (env : Env) (sid : String) (prompts : List String)
    (le : String) (fx : Effects) (j : Json)
    (h : resultJson (parseErrorPath env sid prompts le fx) = some j) :
    j = mkResult "unclear" "Parsing error." := by
  unfold parseErrorPath log_to_csv at h
  repeat' split at h
  all_goals simp [resultJson] at h
  all_goals exact h.symm

/-- The dictionary `classify_and_respond` returns does not depend on
`supaFails` or on the incoming effects. -/
theorem classify_fst_ext (env : Env) (b : Bool) (key sid : String)
    (prompts : List String) (conv : Int → Option String) (fx fx2 : Effects) :
    (classify_and_respond { env with supaFails := b } key sid prompts conv fx).map Prod.fst
      = (classify_and_respond env key sid prompts conv fx2).map Prod.fst := by
  obtain ⟨pr, jl, ht, cf, sf, nw, sp, ut⟩ := env
  unfold classify_and_respond
  dsimp only
  cases hcv : conv ((prompts.length : Int) - 1)
  · rfl
  rename_i le
  dsimp only
  by_cases hany : (SAFETY_RED_FLAGS.any
      fun flag => FUZZY_MATCH_THRESHOLD ≤ pr (pyLower le) flag) = true
  · rw [if_pos hany, if_pos hany]
  · rw [if_neg hany, if_neg hany]
    by_cases hsu : (sp = "" || ut = "") = true
    · rw [if_pos hsu, if_pos hsu]
      simp [Except.map]
    · rw [if_neg hsu, if_neg hsu]
      cases hbr : buildReflections conv 0 prompts ""
      · rfl
      rename_i r
      dsimp only
      rw [call_fst, call_fst]
      have hraw : apiContent ⟨pr, jl, ht, cf, b, nw, sp, ut⟩ key
          (messagesOf ⟨pr, jl, ht, cf, b, nw, sp, ut⟩ r)
          = apiContent ⟨pr, jl, ht, cf, sf, nw, sp, ut⟩ key
            (messagesOf ⟨pr, jl, ht, cf, sf, nw, sp, ut⟩ r) := rfl
      rw [hraw]
      exact afterCall_fst_ext ⟨pr, jl, ht, cf, sf, nw, sp, ut⟩ b sid prompts le _ _ _

-- Claim theorems ---------------------------------------------------

/-- C1 (code bug): on a conversation whose last entry contains the safety
phrase "kill myself" verbatim (fuzzy similarity 100 ≥ 80), the source does
not return the safety dictionary: the safety branch evaluates the local
variable `prompt` before its only assignment and raises UnboundLocalError
to the caller, before any logging. -/
theorem c1_safety_branch_raises :
    classify_and_respond envBase "key" "sid" ["How was your day?"]
      (conv1 "I want to kill myself") fx0 = .error .unboundLocalError := rfl

/-- C2 (counterexample): a remote reply that parses as a JSON object with
category "banana" is returned verbatim, so the returned category is not one
of the five enumerated values. -/
theorem c2_category_counterexample :
    categoryOf (classify_and_respond envBanana "key" "sid" ["p"] (conv1 "hello") fx0)
        = some (.str "banana")
      ∧ "banana" ∉ ["safety", "instruction", "quiet", "positive", "unclear"] :=
  ⟨rfl, by decide⟩

/-- C5 (counterexample): with a failing CSV filesystem, a run whose remote
reply parses fine does not return its classification result: the uncaught
IOError of `log_to_csv` (re-raised by the except handler's own logging call)
reaches the caller. -/
theorem c5_csv_failure_counterexample :
    classify_and_respond envCsvFail "key" "sid" ["p"] (conv1 "hello") fx0
      = .error .ioError := rfl

/-- C10 (counterexample): when the classification of a non-blank entry is
"unclear", `handle_initial_submission` is not a no-op on the session state:
it clears a previously set `error_message`. -/
theorem c10_error_message_cleared :
    (handle_initial_submission aenvUnclear sHello afx0).1.error_message = ""
      ∧ sHello.error_message = "boom" := ⟨rfl, rfl⟩

/-- C10 (amended): for a non-blank entry classified "unclear", the handler
runs no branch: it only clears `error_message`, resets
`current_reflection_concluded`, performs the one classification call, shows
no message, requests no journaling AI response, and does not rerun. -/
theorem c10_unclear_amended (env : AppEnv) (s : AppState) (fx : AppFx)
    (hne : ¬ pyStripWs s.journal_entry_text = "")
    (hout : env.analyzeOutcome s.journal_entry_text = "unclear") :
    handle_initial_submission env s fx
      = ({ s with error_message := "", current_reflection_concluded := false },
         { fx with analyzeCalls := fx.analyzeCalls + 1 }, false) := by
  unfold handle_initial_submission analyze_entry
  simp [hne, hout]

/-- C10 (witness): the amendment applied to a concrete state with a stale
error message and an entry the oracle classifier calls "unclear". -/
theorem c10_unclear_amended_witness :
    handle_initial_submission aenvUnclear sHello afx0
      = ({ sHello with error_message := "", current_reflection_concluded := false },
         { afx0 with analyzeCalls := afx0.analyzeCalls + 1 }, false) :=
  c10_unclear_amended aenvUnclear sHello afx0 (by decide) rfl

/-- C6 (counterexample): `classify_and_respond` has no blank-entry check:
on a whitespace-only entry (no safety phrase scores ≥ 80) it performs the
remote call and returns the remote category, not "quiet". -/
theorem c6_blank_remote_call_counterexample :
    resultApiCalls (classify_and_respond envPos "key" "sid" ["p"] (conv1 "   ") fx0)
        = some 1
      ∧ categoryOf (classify_and_respond envPos "key" "sid" ["p"] (conv1 "   ") fx0)
        = some (.str "positive") := ⟨rfl, rfl⟩

/-- C6 (amended): blank initial entries are rejected by
`handle_initial_submission` before any classification: it shows the fixed
warning, leaves everything but the cleared `error_message` unchanged, and
makes no classification or journaling call. -/
theorem c6_blank_entry_amended (env : AppEnv) (s : AppState) (fx : AppFx)
    (h : pyStripWs s.journal_entry_text = "") :
    handle_initial_submission env s fx
      = ({ s with error_message := "" }, fx.show "warning" BLANK_WARNING, false) := by
  unfold handle_initial_submission
  simp [h]

/-- C6 (witness): the amendment applied to a concrete whitespace entry. -/
theorem c6_blank_entry_amended_witness :
    handle_initial_submission aenvUnclear sBlank afx0
      = ({ sBlank with error_message := "" }, afx0.show "warning" BLANK_WARNING, false) :=
  c6_blank_entry_amended aenvUnclear sBlank afx0 (by decide)

/-- C7 (counterexample): the entry "ok" (length 2, no safety phrase hit) is
not classified "quiet": the remote call is made and its category is
returned. -/
theorem c7_short_entry_counterexample :
    resultApiCalls (classify_and_respond envPos "key" "sid" ["p"] (conv1 "ok") fx0)
        = some 1
      ∧ categoryOf (classify_and_respond envPos "key" "sid" ["p"] (conv1 "ok") fx0)
        = some (.str "positive") := ⟨rfl, rfl⟩

/-- C3: for a remote reply string that is non-empty but unparseable after
cleanup, `classify_and_respond` returns exactly the dictionary
`\x7bcategory: unclear, response_text: Parsing error.\x7d` and the parsing
exception does not propagate. -/
theorem c3_parse_error_fallback (env : Env) (key sid : String) (prompts : List String)
    (conv : Int → Option String) (fx : Effects) (e r s p : String)
    (hconv : conv ((prompts.length : Int) - 1) = some e)
    (hsafe : ∀ flag ∈ SAFETY_RED_FLAGS,
      env.partialRatio (pyLower e) flag < FUZZY_MATCH_THRESHOLD)
    (hsys : ¬ env.systemPrompt = "") (huser : ¬ env.userTemplate = "")
    (hrefl : buildReflections conv 0 prompts "" = .ok r)
    (hp : promptOf prompts = some p)
    (hapi : apiContent env key (messagesOf env r) = some (.str s))
    (hs : ¬ s = "")
    (hload : env.jsonLoads (pyCleanup s) = none)
    (hc : env.csvFails = false) :
    resultJson (classify_and_respond env key sid prompts conv fx)
      = some (mkResult "unclear" "Parsing error.") := by
  rw [classify_reduce env key sid prompts conv fx e r hconv hsafe hsys huser hrefl, hapi]
  unfold afterCall
  dsimp only
  rw [if_neg (by simp [Json.falsy, hs])]
  rw [hload]
  exact resultJson_of_fst _ _ (pep_fst_ok env sid prompts e p _ hc hp)

/-- C3 (witness): a concrete run whose model reply "not json" fails to
parse. -/
theorem c3_parse_error_fallback_witness :
    resultJson (classify_and_respond envBad "key" "sid" ["p"] (conv1 "hello") fx0)
      = some (mkResult "unclear" "Parsing error.") :=
  c3_parse_error_fallback envBad "key" "sid" ["p"] (conv1 "hello") fx0
    "hello" reflHello "not json" "p"
    rfl (by decide) (by decide) (by decide) rfl rfl rfl (by decide) rfl rfl

/-- C4: whenever the outbound request fails (transport error, bad status,
non-JSON body, or missing keys in the payload), `call_openrouter_api`
returns None and `classify_and_respond` returns the fixed
"Couldn’t reach the AI." dictionary; no transport or payload error reaches
the caller. -/
theorem c4_api_failure_unclear (env : Env) (key sid : String) (prompts : List String)
    (conv : Int → Option String) (fx : Effects) (e r : String)
    (hconv : conv ((prompts.length : Int) - 1) = some e)
    (hsafe : ∀ flag ∈ SAFETY_RED_FLAGS,
      env.partialRatio (pyLower e) flag < FUZZY_MATCH_THRESHOLD)
    (hsys : ¬ env.systemPrompt = "") (huser : ¬ env.userTemplate = "")
    (hrefl : buildReflections conv 0 prompts "" = .ok r)
    (hkey : ¬ key = "")
    (hfail : env.http (messagesOf env r) = .transportError
      ∨ env.http (messagesOf env r) = .badStatus
      ∨ env.http (messagesOf env r) = .notJson
      ∨ ∃ body, env.http (messagesOf env r) = .payload body ∧ extractContent body = none) :
    apiContent env key (messagesOf env r) = none
      ∧ resultJson (classify_and_respond env key sid prompts conv fx)
        = some (mkResult "unclear" "Couldn’t reach the AI.") := by
  have hnone : apiContent env key (messagesOf env r) = none := by
    unfold apiContent
    rw [if_neg hkey]
    rcases hfail with h | h | h | ⟨body, h, hx⟩
    · rw [h]
    · rw [h]
    · rw [h]
    · rw [h]
      exact hx
  refine ⟨hnone, ?_⟩
  rw [classify_reduce env key sid prompts conv fx e r hconv hsafe hsys huser hrefl, hnone]
  rfl

/-- C4 (witness): a concrete run whose transport raises. -/
theorem c4_api_failure_unclear_witness :
    apiContent envBase "key" (messagesOf envBase reflHello) = none
      ∧ resultJson (classify_and_respond envBase "key" "sid" ["p"] (conv1 "hello") fx0)
        = some (mkResult "unclear" "Couldn’t reach the AI.") :=
  c4_api_failure_unclear envBase "key" "sid" ["p"] (conv1 "hello") fx0 "hello" reflHello
    rfl (by decide) (by decide) (by decide) rfl (by decide) (Or.inl rfl)

/-- C7 (amended): `classify_and_respond` applies no short-entry length
threshold: for every entry with no safety hit (of any length, including
"ok"), the remote request is attempted exactly once and the run returns
normally with whatever that path yields. -/
theorem c7_no_length_threshold_amended (env : Env) (key sid : String)
    (prompts : List String) (conv : Int → Option String) (fx : Effects) (e r p : String)
    (hconv : conv ((prompts.length : Int) - 1) = some e)
    (hsafe : ∀ flag ∈ SAFETY_RED_FLAGS,
      env.partialRatio (pyLower e) flag < FUZZY_MATCH_THRESHOLD)
    (hsys : ¬ env.systemPrompt = "") (huser : ¬ env.userTemplate = "")
    (hrefl : buildReflections conv 0 prompts "" = .ok r)
    (hp : promptOf prompts = some p)
    (hkey : ¬ key = "")
    (hc : env.csvFails = false) :
    resultApiCalls (classify_and_respond env key sid prompts conv fx)
      = some (fx.apiCalls + 1) := by
  rw [classify_reduce env key sid prompts conv fx e r hconv hsafe hsys huser hrefl]
  rw [afterCall_apiCalls env sid prompts e p _ _ hc hp]
  rw [call_apiCalls env key (messagesOf env r) (fx.print r) hkey]
  rfl

/-- C7 (amended, witness): the two-character entry "ok" still triggers the
remote request. -/
theorem c7_no_length_threshold_amended_witness :
    resultApiCalls (classify_and_respond envPos "key" "sid" ["p"] (conv1 "ok") fx0)
      = some (fx0.apiCalls + 1) :=
  c7_no_length_threshold_amended envPos "key" "sid" ["p"] (conv1 "ok") fx0 "ok" reflOk "p"
    rfl (by decide) (by decide) (by decide) rfl rfl (by decide) rfl

/-- Any normal return of `afterCall` is either an "unclear" fallback or the
parsed remote object handed back verbatim. -/
theorem afterCall_cases (env : Env) (sid : String) (prompts : List String)
    (le : String) (raw : Option Json) (fx : Effects) (j : Json)
    (h : resultJson (afterCall env sid prompts le raw fx) = some j) :
    j.lookup "category" = some (.str "unclear")
      ∨ ∃ s kvs, raw = some (.str s)
          ∧ env.jsonLoads (pyCleanup s) = some (.obj kvs) ∧ j = .obj kvs := by
  unfold afterCall at h
  split at h
  · left
    simp [resultJson] at h
    rw [← h]
    rfl
  rename_i rawJ
  split at h
  · left
    simp [resultJson] at h
    rw [← h]
    rfl
  split at h
  · rename_i s hfneg
    split at h
    · left
      rw [pep_only_parsing_error _ _ _ _ _ _ h]
      rfl
    rename_i parsed hl
    split at h
    · rename_i kvs
      split at h
      · left
        rw [pep_only_parsing_error _ _ _ _ _ _ h]
        rfl
      rename_i prompt hpr
      split at h
      · left
        rw [pep_only_parsing_error _ _ _ _ _ _ h]
        rfl
      rename_i fx5 hcsv
      right
      simp [resultJson] at h
      exact ⟨s, kvs, rfl, hl, h.symm⟩
    · left
      rw [pep_only_parsing_error _ _ _ _ _ _ h]
      rfl
  · left
    rw [pep_only_parsing_error _ _ _ _ _ _ h]
    rfl

/-- C2 (amended): every dictionary `classify_and_respond` returns either
carries category "unclear" (the three local fallbacks) or is the remote
reply's parsed JSON object returned verbatim, whatever category (if any)
that object carries. -/
theorem c2_category_amended (env : Env) (key sid : String) (prompts : List String)
    (conv : Int → Option String) (fx : Effects) (j : Json)
    (h : resultJson (classify_and_respond env key sid prompts conv fx) = some j) :
    j.lookup "category" = some (.str "unclear")
      ∨ remoteParsed env key prompts conv = some j := by
  unfold classify_and_respond at h
  split at h
  · simp [resultJson] at h
  split at h
  · simp [resultJson] at h
  split at h
  · left
    simp [resultJson] at h
    rw [← h]
    rfl
  split at h
  · simp [resultJson] at h
  rename_i r hbr
  dsimp only at h
  rw [call_fst] at h
  rcases afterCall_cases env sid prompts _ _ _ j h with hcat | ⟨s, kvs, hraw, hl, hj⟩
  · exact Or.inl hcat
  · right
    unfold remoteParsed
    rw [hbr]
    dsimp only
    rw [hraw]
    dsimp only
    rw [hl, hj]

/-- C2 (amended, witness): applied to the banana run, whose returned object
is the parsed remote reply. -/
theorem c2_category_amended_witness :
    bananaObj.lookup "category" = some (.str "unclear")
      ∨ remoteParsed envBanana "key" ["p"] (conv1 "hello") = some bananaObj :=
  c2_category_amended envBanana "key" "sid" ["p"] (conv1 "hello") fx0 bananaObj rfl

/-- C5 (amended): a Supabase insert failure is caught inside
`log_to_supabase` and only reported on the diagnostic channel, and the
dictionary (or exception) `classify_and_respond` produces never depends on
whether the Supabase insert fails; a CSV append failure is not caught by
`log_to_csv` and can raise to the caller. -/
theorem c5_logging_amended (env : Env) (b : Bool) (key sid : String)
    (prompts : List String) (conv : Int → Option String) (fx : Effects)
    (sid2 p e c r : String) (flag : Bool) (fx2 : Effects) :
    ((classify_and_respond { env with supaFails := b } key sid prompts conv fx).map Prod.fst
      = (classify_and_respond env key sid prompts conv fx).map Prod.fst)
    ∧ log_to_supabase { env with supaFails := true } sid2 p e c r flag fx2
        = fx2.print "❌ Supabase logging failed:" := by
  refine ⟨classify_fst_ext env b key sid prompts conv fx fx, ?_⟩
  unfold log_to_supabase
  rw [if_pos rfl]

-- C8: the fence-stripping cleanup -----------------------------------

theorem dropWhile_append_of_all {p : Char → Bool} (a l : List Char)
    (ha : ∀ c ∈ a, p c = true) : (a ++ l).dropWhile p = l.dropWhile p := by
  induction a with
  | nil => rfl
  | cons c cs ih =>
    have hc : p c = true := ha c (List.mem_cons_self c cs)
    rw [List.cons_append, List.dropWhile_cons, if_pos hc]
    exact ih (fun x hx => ha x (List.mem_cons_of_mem c hx))

theorem dropWhile_cons_of_head {p : Char → Bool} {c : Char} (l : List Char)
    (hc : p c = false) : (c :: l).dropWhile p = c :: l := by
  rw [List.dropWhile_cons, if_neg (by simp [hc])]

/-- Stripping a padded list whose core starts and ends with non-stripped
characters yields exactly the core. -/
theorem stripBoth_of_wrapped (p : Char → Bool) (a b t : List Char)
    (ha : ∀ c ∈ a, p c = true) (hb : ∀ c ∈ b, p c = true)
    (hh : ∀ c, t.head? = some c → p c = false)
    (hl : ∀ c, t.getLast? = some c → p c = false)
    (ht : t ≠ []) :
    stripBoth p (a ++ t ++ b) = t := by
  obtain ⟨c0, t0, rfl⟩ := List.exists_cons_of_ne_nil ht
  have hc0 : p c0 = false := hh c0 rfl
  unfold stripBoth
  rw [List.append_assoc, dropWhile_append_of_all a _ ha, List.cons_append,
    dropWhile_cons_of_head _ hc0, ← List.cons_append, List.reverse_append,
    dropWhile_append_of_all b.reverse _ (fun c hc => hb c (List.mem_reverse.mp hc))]
  obtain ⟨d, rest, hdr⟩ :=
    List.exists_cons_of_ne_nil (l := (c0 :: t0).reverse) (by simp)
  have hd : p d = false := by
    apply hl
    rw [List.getLast?_eq_head?_reverse, hdr]
    rfl
  rw [hdr, dropWhile_cons_of_head _ hd, ← hdr, List.reverse_reverse]

theorem startsWith_json_of_lbrace (t : String) (hth : t.data.head? = some lbrace) :
    pyStartsWith (pyLower t) "json" = false := by
  unfold pyStartsWith pyLower
  cases hd : t.data with
  | nil => rw [hd] at hth; simp at hth
  | cons c0 t0 =>
    rw [hd] at hth
    have hc0 : c0 = lbrace := by simpa using hth
    subst hc0
    have hj : (decide (('j' : Char) = Char.toLower lbrace)) = false := rfl
    simp [isPre, hj]

theorem startsWith_fence_of_lbrace (t : String) (hth : t.data.head? = some lbrace) :
    pyStartsWith t "```json" = false := by
  unfold pyStartsWith
  cases hd : t.data with
  | nil => rw [hd] at hth; simp at hth
  | cons c0 t0 =>
    rw [hd] at hth
    have hc0 : c0 = lbrace := by simpa using hth
    subst hc0
    simp only [isPre, List.map_cons, Bool.and_eq_false_imp, decide_eq_true_eq]
    intro hx
    exact absurd hx (by decide)

theorem endsWith_fence_of_rbrace (t : String) (htl : t.data.getLast? = some rbrace) :
    pyEndsWith t "```" = false := by
  unfold pyEndsWith
  cases hd : t.data.reverse with
  | nil =>
    rw [List.getLast?_eq_head?_reverse, hd] at htl
    simp at htl
  | cons c0 t0 =>
    rw [List.getLast?_eq_head?_reverse, hd] at htl
    have hc0 : c0 = rbrace := by simpa using htl
    subst hc0
    simp only [isPre, List.map_cons, Bool.and_eq_false_imp, decide_eq_true_eq]
    intro hx
    exact absurd hx (by decide)

theorem isPre_append_self (a r : List Char) : isPre a (a ++ r) = true := by
  induction a with
  | nil => rfl
  | cons c cs ih => simp [isPre, ih]

/-- `pyCleanup` on a reply that is the JSON text padded by backquotes,
spaces and newlines. -/
theorem pyCleanup_unwrapped (p q : List Char) (t : String)
    (hp : ∀ c ∈ p, (c = bq || c = ' ' || c = '\n') = true)
    (hq : ∀ c ∈ q, (c = bq || c = ' ' || c = '\n') = true)
    (hth : t.data.head? = some lbrace)
    (htl : t.data.getLast? = some rbrace) :
    pyCleanup ⟨p ++ t.data ++ q⟩ = t := by
  have ht : t.data ≠ [] := by
    intro h
    rw [h] at hth
    simp at hth
  have hstrip : pyStripFence ⟨p ++ t.data ++ q⟩ = t := by
    unfold pyStripFence
    rw [show String.data ⟨p ++ t.data ++ q⟩ = p ++ t.data ++ q from rfl]
    rw [stripBoth_of_wrapped _ p q t.data hp hq
      (fun c hc => by rw [hth] at hc; cases hc; rfl)
      (fun c hc => by rw [htl] at hc; cases hc; rfl) ht]
  unfold pyCleanup
  dsimp only
  rw [hstrip, startsWith_json_of_lbrace t hth]
  simp only [Bool.false_eq_true, if_false]
  rw [startsWith_fence_of_lbrace t hth]
  simp only [Bool.false_eq_true, if_false]
  rw [endsWith_fence_of_rbrace t htl]
  simp only [Bool.false_eq_true, if_false]

/-- `pyCleanup` on a reply that prefixes the padded JSON text with a
(case-insensitively recognized, here lowercase) "json" tag and whitespace. -/
theorem pyCleanup_json_tagged (p q m : List Char) (t : String)
    (hp : ∀ c ∈ p, (c = bq || c = ' ' || c = '\n') = true)
    (hq : ∀ c ∈ q, (c = bq || c = ' ' || c = '\n') = true)
    (hm : ∀ c ∈ m, pyIsSpace c = true)
    (hth : t.data.head? = some lbrace)
    (htl : t.data.getLast? = some rbrace) :
    pyCleanup ⟨p ++ ("json".data ++ (m ++ t.data)) ++ q⟩ = t := by
  have ht : t.data ≠ [] := by
    intro h
    rw [h] at hth
    simp at hth
  have hth2 : ∀ c, t.data.head? = some c → pyIsSpace c = false :=
    fun c hc => by rw [hth] at hc; cases hc; rfl
  have htl2 : ∀ c, t.data.getLast? = some c → pyIsSpace c = false :=
    fun c hc => by rw [htl] at hc; cases hc; rfl
  have hmid : ("json".data ++ (m ++ t.data)) ≠ [] := by simp
  have hstrip : pyStripFence ⟨p ++ ("json".data ++ (m ++ t.data)) ++ q⟩
      = ⟨"json".data ++ (m ++ t.data)⟩ := by
    unfold pyStripFence
    rw [show String.data ⟨p ++ ("json".data ++ (m ++ t.data)) ++ q⟩
      = p ++ ("json".data ++ (m ++ t.data)) ++ q from rfl]
    rw [stripBoth_of_wrapped _ p q _ hp hq (fun c hc => by cases hc; rfl)
      (fun c hc => by
        rw [List.getLast?_append_of_ne_nil _ (by simp [ht]),
          List.getLast?_append_of_ne_nil _ ht, htl] at hc
        cases hc
        rfl)
      hmid]
  have hws : pyStripWs ⟨m ++ t.data⟩ = t := by
    unfold pyStripWs
    rw [show String.data ⟨m ++ t.data⟩ = m ++ t.data from rfl]
    rw [show m ++ t.data = m ++ t.data ++ [] by simp]
    rw [stripBoth_of_wrapped pyIsSpace m [] t.data hm (by simp) hth2 htl2 ht]
  unfold pyCleanup
  dsimp only
  rw [hstrip]
  have hstart : pyStartsWith (pyLower ⟨"json".data ++ (m ++ t.data)⟩) "json" = true := by
    unfold pyStartsWith pyLower
    rw [show String.data ⟨"json".data ++ (m ++ t.data)⟩
      = "json".data ++ (m ++ t.data) from rfl]
    rw [List.map_append]
    exact isPre_append_self _ _
  rw [hstart]
  simp only [if_true, reduceIte]
  rw [show (String.data ⟨"json".data ++ (m ++ t.data)⟩).drop 4 = m ++ t.data from
    List.drop_left "json".data (m ++ t.data)]
  rw [hws, startsWith_fence_of_lbrace t hth]
  simp only [Bool.false_eq_true, if_false]
  rw [endsWith_fence_of_rbrace t htl]
  simp only [Bool.false_eq_true, if_false]

/-- C8: a remote reply that is a JSON object text `t` (here: starting with
a brace and ending with one), possibly wrapped in backquote fences with an
optional "json" tag and space/newline padding, is stripped back to `t` and
the parsed object is returned verbatim. -/
theorem c8_fence_stripping (env : Env) (key sid : String) (prompts : List String)
    (conv : Int → Option String) (fx : Effects) (e r s pr : String)
    (t : String) (kvs : List (String × Json)) (p q : List Char)
    (hconv : conv ((prompts.length : Int) - 1) = some e)
    (hsafe : ∀ flag ∈ SAFETY_RED_FLAGS,
      env.partialRatio (pyLower e) flag < FUZZY_MATCH_THRESHOLD)
    (hsys : ¬ env.systemPrompt = "") (huser : ¬ env.userTemplate = "")
    (hrefl : buildReflections conv 0 prompts "" = .ok r)
    (hpr : promptOf prompts = some pr)
    (hapi : apiContent env key (messagesOf env r) = some (.str s))
    (hc : env.csvFails = false)
    (hp : ∀ c ∈ p, (c = bq || c = ' ' || c = '\n') = true)
    (hq : ∀ c ∈ q, (c = bq || c = ' ' || c = '\n') = true)
    (hth : t.data.head? = some lbrace)
    (htl : t.data.getLast? = some rbrace)
    (hwrap : s.data = p ++ t.data ++ q
      ∨ ∃ m, (∀ c ∈ m, pyIsSpace c = true)
          ∧ s.data = p ++ ("json".data ++ (m ++ t.data)) ++ q)
    (hload : env.jsonLoads t = some (.obj kvs)) :
    resultJson (classify_and_respond env key sid prompts conv fx)
      = some (.obj kvs) := by
  have ht : t.data ≠ [] := by
    intro h
    rw [h] at hth
    simp at hth
  have hs : ¬ s = "" := by
    intro h
    rw [h] at hwrap
    rcases hwrap with hw | ⟨m, _, hw⟩
    · obtain ⟨h1, h2⟩ := List.append_eq_nil.mp hw.symm
      exact ht (List.append_eq_nil.mp h1).2
    · obtain ⟨h1, h2⟩ := List.append_eq_nil.mp hw.symm
      have h3 := (List.append_eq_nil.mp h1).2
      simp at h3
  have hcl : pyCleanup s = t := by
    rcases hwrap with hw | ⟨m, hm, hw⟩
    · rw [show s = ⟨p ++ t.data ++ q⟩ from (mk_data s).symm.trans (congrArg String.mk hw)]
      exact pyCleanup_unwrapped p q t hp hq hth htl
    · rw [show s = ⟨p ++ ("json".data ++ (m ++ t.data)) ++ q⟩ from
        (mk_data s).symm.trans (congrArg String.mk hw)]
      exact pyCleanup_json_tagged p q m t hp hq hm hth htl
  rw [classify_reduce env key sid prompts conv fx e r hconv hsafe hsys huser hrefl, hapi]
  unfold afterCall
  dsimp only
  rw [if_neg (by simp [Json.falsy, hs])]
  rw [hcl, hload]
  dsimp only
  rw [hpr]
  unfold log_to_csv
  dsimp only
  rw [if_neg (by simp [hc])]
  rfl

/-- C8 (witness): the fenced reply "```json\n...positive object...\n```" is
stripped and parsed, and the positive object is returned verbatim. -/
theorem c8_fence_stripping_witness :
    resultJson (classify_and_respond envFenced "key" "sid" ["p"] (conv1 "hello") fx0)
      = some (.obj [("category", .str "positive"), ("response_text", .str "Nice!")]) :=
  c8_fence_stripping envFenced "key" "sid" ["p"] (conv1 "hello") fx0
    "hello" reflHello fencedTxt "p" posTxt
    [("category", .str "positive"), ("response_text", .str "Nice!")]
    "```".data "\n```".data
    rfl (by decide) (by decide) (by decide) rfl rfl rfl rfl
    (by decide) (by decide) rfl rfl
    (Or.inr ⟨['\n'], by decide, by decide⟩) rfl

-- C9: reading the CSV log back -------------------------------------

/-- Scanning the escaped interior of a quoted field appends exactly the
original field and stops at the closing quote (which is never followed by
another quote in writer output). -/
theorem csvScan_escQ (f : List Char) (field : List Char) (row : List (List Char))
    (rest : List Char)
    (hrest : rest = [] ∨ ∀ c, rest.head? = some c → ¬ c = dq) :
    csvScan (escQ f ++ (dq :: rest)) true field row
      = csvScan rest false (field ++ f) row := by
  induction f generalizing field with
  | nil =>
    simp only [escQ, List.nil_append, List.append_nil]
    rcases hrest with h | h
    · subst h
      rw [csvScan.eq_def]
      rfl
    · cases rest with
      | nil =>
        rw [csvScan.eq_def]
        rfl
      | cons c2 rest2 =>
        have hc2 : ¬ c2 = dq := h c2 rfl
        rw [csvScan.eq_def]
        simp [hc2]
  | cons c cs ih =>
    by_cases hcq : c = dq
    · subst hcq
      rw [show escQ (dq :: cs) = dq :: dq :: escQ cs by simp [escQ]]
      rw [List.cons_append, List.cons_append]
      rw [show csvScan (dq :: (dq :: (escQ cs ++ (dq :: rest)))) true field row
        = csvScan (escQ cs ++ (dq :: rest)) true (field ++ [dq]) row by
        rw [csvScan.eq_def]
        rfl]
      rw [ih (field ++ [dq])]
      simp
    · rw [show escQ (c :: cs) = c :: escQ cs by simp [escQ, hcq]]
      rw [List.cons_append]
      rw [show csvScan (c :: (escQ cs ++ (dq :: rest))) true field row
        = csvScan (escQ cs ++ (dq :: rest)) true (field ++ [c]) row by
        rw [csvScan.eq_def]
        simp [hcq]]
      rw [ih (field ++ [c])]
      simp

/-- Scanning an unquoted field (no delimiter, quote or line-break
characters) appends it verbatim. -/
theorem csvScan_plain (f : List Char) (field : List Char) (row : List (List Char))
    (rest : List Char)
    (hf : ∀ c ∈ f, ¬ c = dq ∧ ¬ c = ',' ∧ ¬ c = '\r' ∧ ¬ c = '\n') :
    csvScan (f ++ rest) false field row = csvScan rest false (field ++ f) row := by
  induction f generalizing field with
  | nil => simp
  | cons c cs ih =>
    obtain ⟨h1, h2, h3, h4⟩ := hf c (List.mem_cons_self c cs)
    rw [List.cons_append]
    rw [show csvScan (c :: (cs ++ rest)) false field row
      = csvScan (cs ++ rest) false (field ++ [c]) row by
      rw [csvScan.eq_def]
      simp [h1, h2, h3, h4]]
    rw [ih (field ++ [c]) (fun x hx => hf x (List.mem_cons_of_mem c hx))]
    simp

/-- Scanning one encoded field consumes it and leaves the scanner at the
following delimiter with the decoded field accumulated. -/
theorem csvScan_encField (f : List Char) (row : List (List Char)) (rest : List Char)
    (hrest : rest.head? = some ',' ∨ rest.head? = some '\r') :
    csvScan (encFieldL f ++ rest) false [] row = csvScan rest false f row := by
  have hrdq : rest = [] ∨ ∀ c, rest.head? = some c → ¬ c = dq := by
    right
    intro c hc
    rcases hrest with h | h <;> rw [h] at hc <;> cases hc <;> decide
  by_cases hq : needsQ f = true
  · rw [show encFieldL f = dq :: (escQ f ++ [dq]) by simp [encFieldL, hq]]
    rw [List.cons_append, List.append_assoc, List.singleton_append]
    rw [show csvScan (dq :: (escQ f ++ (dq :: rest))) false [] row
      = csvScan (escQ f ++ (dq :: rest)) true [] row by
      rw [csvScan.eq_def]
      rfl]
    rw [csvScan_escQ f [] row rest hrdq]
    simp
  · rw [show encFieldL f = f by simp [encFieldL, hq]]
    have hf : ∀ c ∈ f, ¬ c = dq ∧ ¬ c = ',' ∧ ¬ c = '\r' ∧ ¬ c = '\n' := by
      intro c hc
      have := List.any_eq_false.mp (Bool.not_eq_true _ ▸ hq) c hc
      simp only [Bool.or_eq_true, decide_eq_true_eq, not_or] at this
      exact ⟨this.1.1.2, this.1.1.1, this.1.2, this.2⟩
    rw [csvScan_plain f [] row rest hf]
    simp

/-- Scanning one encoded CRLF-terminated record yields its fields as the
next parsed record. -/
theorem csvScan_encRow (fs : List (List Char)) (row : List (List Char))
    (rest : List Char) (hfs : fs ≠ []) :
    csvScan (joinComma (fs.map encFieldL) ++ ('\r' :: '\n' :: rest)) false [] row
      = (row ++ fs) :: csvScan rest false [] [] := by
  induction fs generalizing row with
  | nil => exact absurd rfl hfs
  | cons f fs2 ih =>
    cases fs2 with
    | nil =>
      rw [show joinComma ([f].map encFieldL) = encFieldL f by simp [joinComma]]
      rw [csvScan_encField f row ('\r' :: '\n' :: rest) (Or.inr rfl)]
      rw [csvScan.eq_def]
      rfl
    | cons f2 fs3 =>
      rw [show joinComma ((f :: f2 :: fs3).map encFieldL)
        = encFieldL f ++ (',' :: joinComma ((f2 :: fs3).map encFieldL)) by
        simp [joinComma]]
      rw [List.append_assoc, List.cons_append]
      rw [csvScan_encField f row
        (',' :: (joinComma ((f2 :: fs3).map encFieldL) ++ ('\r' :: '\n' :: rest)))
        (Or.inl rfl)]
      rw [show csvScan (',' :: (joinComma ((f2 :: fs3).map encFieldL)
          ++ ('\r' :: '\n' :: rest))) false f row
        = csvScan (joinComma ((f2 :: fs3).map encFieldL) ++ ('\r' :: '\n' :: rest))
            false [] (row ++ [f]) by
        rw [csvScan.eq_def]
        rfl]
      rw [ih (row ++ [f]) (by simp)]
      simp

/-- Scanning a concatenation of encoded records recovers exactly those
records. -/
theorem csvScan_encRows (rows : List (List (List Char)))
    (h : ∀ fs ∈ rows, fs ≠ []) :
    csvScan (rows.map encRowL).flatten false [] [] = rows := by
  induction rows with
  | nil =>
    rw [csvScan.eq_def]
    rfl
  | cons fs rows2 ih =>
    rw [List.map_cons, List.flatten_cons]
    rw [show encRowL fs = joinComma (fs.map encFieldL) ++ ['\r', '\n'] from rfl]
    rw [List.append_assoc]
    rw [show ['\r', '\n'] ++ (rows2.map encRowL).flatten
      = '\r' :: '\n' :: (rows2.map encRowL).flatten from rfl]
    rw [csvScan_encRow fs [] _ (h fs (List.mem_cons_self fs rows2))]
    rw [ih (fun x hx => h x (List.mem_cons_of_mem fs hx))]
    simp

theorem str_eq_empty_iff (s : String) : s = "" ↔ s.data = [] := by
  constructor
  · intro h
    rw [h]
  · intro h
    rw [← mk_data s, h]

/-- Appending records to a nonempty file only concatenates encoded rows. -/
theorem foldl_log_data (rs : List CsvRow) : ∀ c : String, ¬ c = "" →
    (rs.foldl (fun contents r => logCsvText r contents) c).data
      = c.data ++ (rs.map (fun r => encRowL (r.fields.map String.data))).flatten := by
  induction rs with
  | nil => intro c _; simp
  | cons r rest ih =>
    intro c hc
    rw [List.foldl_cons]
    have hlog : logCsvText r c = c ++ csvEncodeRow r.fields := by
      unfold logCsvText
      rw [if_neg hc]
    rw [hlog]
    have hne : ¬ (c ++ csvEncodeRow r.fields) = "" := by
      rw [str_eq_empty_iff, data_append, List.append_eq_nil]
      intro hcontra
      exact ((str_eq_empty_iff c).not.mp hc) hcontra.1
    rw [ih _ hne, data_append]
    simp [csvEncodeRow, List.append_assoc, Function.comp]

/-- C9: starting from an empty (or absent) file, the header row is written
exactly once and first; reading the file back yields the header record
followed by one record per logged row whose field values (timestamp,
prompt, entry, category, response_text, and the rendered safety flag) are
exactly the values logged; and appending to a nonempty file writes no
second header. -/
theorem c9_csv_roundtrip (rs : List CsvRow) (r : CsvRow) (c : String)
    (hrs : rs ≠ []) (hc : ¬ c = "") :
    parseCsv (csvFileOf rs) = csvFieldNames :: rs.map CsvRow.fields
      ∧ logCsvText r c = c ++ csvEncodeRow r.fields := by
  constructor
  · cases rs with
    | nil => exact absurd rfl hrs
    | cons r0 rest =>
      unfold csvFileOf
      rw [List.foldl_cons]
      have h0 : logCsvText r0 ""
          = ("" ++ csvEncodeRow csvFieldNames) ++ csvEncodeRow r0.fields := by
        unfold logCsvText
        rw [if_pos rfl]
      rw [h0]
      have hne : ¬ (("" ++ csvEncodeRow csvFieldNames) ++ csvEncodeRow r0.fields) = "" := by
        rw [str_eq_empty_iff, data_append, List.append_eq_nil]
        intro hcontra
        have := hcontra.2
        simp [csvEncodeRow, encRowL] at this
      unfold parseCsv
      rw [foldl_log_data rest _ hne]
      rw [data_append, data_append]
      have hflat : (String.data ("" : String) ++ encRowL (csvFieldNames.map String.data))
            ++ encRowL (r0.fields.map String.data)
            ++ (rest.map (fun r => encRowL (r.fields.map String.data))).flatten
          = (((csvFieldNames.map String.data)
              :: (r0 :: rest).map (fun r => r.fields.map String.data)).map encRowL).flatten := by
        simp [List.flatten_cons, List.append_assoc, List.map_map, Function.comp_def]
      rw [show String.data (csvEncodeRow csvFieldNames)
        = encRowL (csvFieldNames.map String.data) from rfl]
      rw [show String.data (csvEncodeRow r0.fields)
        = encRowL (r0.fields.map String.data) from rfl]
      rw [hflat]
      rw [csvScan_encRows _ ?hne2]
      case hne2 =>
        intro fs hfs
        rcases List.mem_cons.mp hfs with h | h
        · subst h
          simp [csvFieldNames]
        · rw [List.mem_map] at h
          obtain ⟨row1, _, hrow⟩ := h
          rw [← hrow]
          simp [CsvRow.fields]
      rw [List.map_cons]
      rw [show ((csvFieldNames.map String.data).map fun f => (⟨f⟩ : String))
        = csvFieldNames from by simp [List.map_map, Function.comp_def, mk_data]]
      rw [List.map_map]
      rfl
  · unfold logCsvText
    rw [if_neg hc]

/-- C9 (witness): one concrete record containing a comma, quotes and a
newline round-trips, and a subsequent append writes no header. -/
theorem c9_csv_roundtrip_witness :
    parseCsv (csvFileOf [row0]) = csvFieldNames :: [row0].map CsvRow.fields
      ∧ logCsvText row0 "x" = "x" ++ csvEncodeRow row0.fields :=
  c9_csv_roundtrip [row0] row0 "x" (by simp) (by simp)

end Echo
